import Mathlib

/-!
Verification of the Agent Registry Client of this repository
(`src/as_agent_registry_service.py`, with the identical merge logic in
`src/util.py`).  The Python functions are shallowly embedded as Lean
functions.  Remote effects (credential acquisition and the curl/HTTP
round-trips) are modelled as explicit oracle arguments describing the
outcome of each external call; everything the Python code itself computes
(validation, payload construction, merge, branching) is translated
directly from the source.

Python strings passed as parameters are modelled as `String`, with the
empty string standing for Python's falsy values (`None` or `""`) — every
use of a parameter in the source is a truthiness test (`x or y`,
`if x:`), under which `None` and `""` behave identically.
-/

/-- Python `x or d` for strings: `x` if truthy (non-empty), else `d`. -/
def strOr (x d : String) : String := if x = "" then d else x

/-- The `toolSettings` group of a stored agent record, as read back from
the remote store (camelCase JSON keys). -/
structure ToolSettings where
  toolDescription : Option String
deriving DecidableEq

/-- The `provisionedReasoningEngine` group of a stored agent record. -/
structure ProvisionedReasoningEngine where
  reasoningEngine : Option String
deriving DecidableEq

/-- The `adkAgentDefinition` group of a stored agent record. -/
structure AdkAgentDefinition where
  toolSettings : Option ToolSettings
  provisionedReasoningEngine : Option ProvisionedReasoningEngine
  authorizations : Option (List String)
deriving DecidableEq

/-- An icon group: the client only ever reads or writes a `uri` member. -/
structure IconGroup where
  uri : String
deriving DecidableEq

/-- A stored agent record as returned by `get`/`list` (`agent_details`).
`none` models an absent JSON key. -/
structure ExistingAgent where
  displayName : Option String
  description : Option String
  adkAgentDefinition : Option AdkAgentDefinition
  icon : Option IconGroup
deriving DecidableEq

/-- The `tool_settings` group written by the client. -/
structure ToolSettingsOut where
  tool_description : String
deriving DecidableEq

/-- The provisioned-reasoning-engine group written by the client. -/
structure ProvisionedOut where
  reasoning_engine : String
deriving DecidableEq

/-- The `updated_adk` dict built by `update_agent` (source lines 231-247). -/
structure UpdatedAdk where
  tool_settings : ToolSettingsOut
  provisionedReasoningEngine : ProvisionedOut
  authorizations : List String
deriving DecidableEq

/-- The `updated_data` dict built by `update_agent` (source lines 224-255):
the merged payload sent as the PATCH body. -/
structure UpdatedData where
  displayName : String
  description : String
  icon : Option IconGroup
  adk_agent_definition : UpdatedAdk
deriving DecidableEq

/-- The caller-supplied arguments of `update_agent`; empty string models an
absent/blank parameter. -/
structure UpdateArgs where
  project_id : String
  app_id : String
  agent_id : String
  display_name : String
  description : String
  tool_description : String
  adk_deployment_id : String
  auth_id : String
  icon_uri : String
deriving DecidableEq

/-- The read-modify-write merge of `update_agent` (source lines 221-255):
builds the `updated_data` PATCH body from the caller arguments and the
record fetched from the store. -/
def updatedData (a : UpdateArgs) (existing_agent : ExistingAgent) : UpdatedData :=
  let existing_adk := existing_agent.adkAgentDefinition.getD ⟨none, none, none⟩
  let existing_tool := existing_adk.toolSettings.getD ⟨none⟩
  let existing_reasoning :=
    ((existing_adk.provisionedReasoningEngine.getD ⟨none⟩).reasoningEngine).getD ""
  let existing_auths := existing_adk.authorizations.getD []
  let existing_icon := existing_agent.icon
  { displayName := strOr a.display_name (existing_agent.displayName.getD "")
    description := strOr a.description (existing_agent.description.getD "")
    icon := if a.icon_uri ≠ "" then some ⟨a.icon_uri⟩ else existing_icon
    adk_agent_definition :=
      { tool_settings := ⟨strOr a.tool_description (existing_tool.toolDescription.getD "")⟩
        provisionedReasoningEngine := ⟨strOr a.adk_deployment_id existing_reasoning⟩
        authorizations := if a.auth_id ≠ "" then [a.auth_id] else existing_auths } }

/-- The caller-supplied arguments of `create_agent`. -/
structure CreateArgs where
  project_id : String
  app_id : String
  display_name : String
  description : String
  tool_description : String
  adk_deployment_id : String
  auth_id : String
  icon_uri : String
deriving DecidableEq

/-- The `adk_agent_definition` dict built by `create_agent` (lines 61-69). -/
structure AdkDefOut where
  tool_settings : ToolSettingsOut
  provisioned_reasoning_engine : ProvisionedOut
  authorizations : List String
deriving DecidableEq

/-- The `data` dict built by `create_agent` (lines 58-73): the POST body. -/
structure CreateData where
  displayName : String
  description : String
  adk_agent_definition : AdkDefOut
  icon : Option IconGroup
deriving DecidableEq

/-- The canonical reasoning-engine resource path composed by `create_agent`
(source line 66). -/
def reasoningEngineRef (project_id adk_deployment_id : String) : String :=
  "projects/" ++ project_id ++ "/locations/global/reasoningEngines/" ++ adk_deployment_id

/-- The canonical authorization resource path composed by `create_agent`
(source line 68). -/
def authorizationRef (project_id auth_id : String) : String :=
  "projects/" ++ project_id ++ "/locations/global/authorizations/" ++ auth_id

/-- The POST body built by `create_agent` (source lines 58-73). -/
def createData (a : CreateArgs) : CreateData :=
  { displayName := a.display_name
    description := a.description
    adk_agent_definition :=
      { tool_settings := ⟨a.tool_description⟩
        provisioned_reasoning_engine := ⟨reasoningEngineRef a.project_id a.adk_deployment_id⟩
        authorizations :=
          if a.auth_id ≠ "" then [authorizationRef a.project_id a.auth_id] else [] }
    icon := if a.icon_uri ≠ "" then some ⟨a.icon_uri⟩ else none }

/-- `_check_required_params` (source lines 23-26), missing-list part:
the required parameter names, in order, whose value is falsy.  The
parameter environment is the ordered list of (name, value) pairs. -/
def missingParams (params : List (String × String)) : List String :=
  (params.filter (fun p => p.snd == "")).map Prod.fst

/-- The message of the `ValueError` raised by `_check_required_params`. -/
def missingParamsMsg (missing : List String) : String :=
  "Missing required parameters: " ++ String.intercalate ", " missing

/-- The required-parameter environment checked by `create_agent` (line 45). -/
def createRequired (a : CreateArgs) : List (String × String) :=
  [("project_id", a.project_id), ("app_id", a.app_id),
   ("display_name", a.display_name), ("description", a.description),
   ("tool_description", a.tool_description),
   ("adk_deployment_id", a.adk_deployment_id)]

/-- The required-parameter environment checked by `list_agents` (line 136). -/
def listRequired (project_id app_id : String) : List (String × String) :=
  [("project_id", project_id), ("app_id", app_id)]

/-- The required-parameter environment checked by `get_agent` (line 186)
and by `delete_agent` (line 330). -/
def getRequired (project_id app_id agent_id : String) : List (String × String) :=
  [("project_id", project_id), ("app_id", app_id), ("agent_id", agent_id)]

/-- The required-parameter environment checked by
`get_agent_by_display_name` (line 303). -/
def findRequired (project_id app_id display_name : String) : List (String × String) :=
  [("project_id", project_id), ("app_id", app_id), ("display_name", display_name)]

/-- Outcome of a Python call: either a value was returned, or an uncaught
exception with the given message propagated to the caller. -/
inductive PyResult (α : Type) where
  | raised (msg : String)
  | ret (v : α)
deriving DecidableEq

/-- The call returned a value (no exception propagated). -/
def PyResult.isReturned : PyResult α → Prop
  | .raised _ => False
  | .ret _ => True

/-- The call let an uncaught exception propagate to the caller. -/
def PyResult.isRaised : PyResult α → Prop
  | .raised _ => True
  | .ret _ => False

/-- Whether an `Except` oracle outcome is a success. -/
def exceptIsOk : Except ε α → Bool
  | .ok _ => true
  | .error _ => false

/-- Outcome of the curl round-trip inside `get_agent`: exit 0 with a JSON
body, exit 0 with an unparseable body, or a non-zero exit. -/
inductive GetCurl where
  | parsed (ag : ExistingAgent)
  | badJson (stderrText : String)
  | failed (returncode : Int) (stderrText : String)
deriving DecidableEq

/-- The dict returned by `get_agent` (source lines 151-195). -/
inductive GetReturn where
  | agentDetails (ag : ExistingAgent)
  | authError (msg : String)
  | decodeError (stderrText : String)
  | getError (returncode : Int) (stderrText : String)
deriving DecidableEq

/-- `get_result.get("error", "")`: the error message carried by each shape
of `get_agent` result (empty when there is no error key). -/
def getReturnError : GetReturn → String
  | .agentDetails _ => ""
  | .authError m => m
  | .decodeError _ => "Could not decode JSON response."
  | .getError c s => "Error: " ++ toString c ++ " - " ++ s

/-- `get_agent` (source lines 151-195): credentials first; the curl
round-trip runs next; only then `_check_required_params` (line 186), which
raises on a missing parameter; finally the response is reshaped. -/
def get_agent (project_id app_id agent_id : String)
    (auth : Except String String) (curl : GetCurl) : PyResult GetReturn :=
  match auth with
  | .error e => .ret (.authError ("Authentication failed: " ++ e))
  | .ok _ =>
    if missingParams (getRequired project_id app_id agent_id) ≠ [] then
      .raised (missingParamsMsg (missingParams (getRequired project_id app_id agent_id)))
    else
      match curl with
      | .parsed ag => .ret (.agentDetails ag)
      | .badJson s => .ret (.decodeError s)
      | .failed c s => .ret (.getError c s)

/-- Outcome of the curl round-trip inside `list_agents`. -/
inductive ListCurl where
  | withAgents (l : List ExistingAgent)
  | withoutAgents
  | badJson (stderrText : String)
  | failed (stderrText : String)
deriving DecidableEq

/-- The dict returned by `list_agents` (source lines 102-149). -/
inductive ListReturn where
  | agents (l : List ExistingAgent)
  | authError (msg : String)
  | decodeError (stderrText : String)
  | listError (stderrText : String)
deriving DecidableEq

/-- `list_agents` (source lines 102-149): credentials, curl, then the
required-parameter check (line 136, after the round-trip), then reshaping:
a JSON body without an `agents` key yields an empty list. -/
def list_agents (project_id app_id : String)
    (auth : Except String String) (curl : ListCurl) : PyResult ListReturn :=
  match auth with
  | .error e => .ret (.authError ("Authentication failed: " ++ e))
  | .ok _ =>
    if missingParams (listRequired project_id app_id) ≠ [] then
      .raised (missingParamsMsg (missingParams (listRequired project_id app_id)))
    else
      match curl with
      | .withAgents l => .ret (.agents l)
      | .withoutAgents => .ret (.agents [])
      | .badJson s => .ret (.decodeError s)
      | .failed s => .ret (.listError s)

/-- The dict returned by `create_agent` up to the point the POST is issued:
the later response reshaping (lines 88-100) returns dicts in every branch
and decides none of the claims. -/
inductive CreateReturn where
  | authError (msg : String)
  | posted (body : CreateData)
deriving DecidableEq

/-- `create_agent` (source lines 28-100): required-parameter check first
(line 45, raising on failure), then credentials, then the POST whose body
is `createData`. -/
def create_agent (a : CreateArgs) (auth : Except String String) : PyResult CreateReturn :=
  if missingParams (createRequired a) ≠ [] then
    .raised (missingParamsMsg (missingParams (createRequired a)))
  else
    match auth with
    | .error e => .ret (.authError ("Authentication failed: " ++ e))
    | .ok _ => .ret (.posted (createData a))

/-- The dict returned by `update_agent` up to the point the PATCH is
issued (the response reshaping at lines 282-289 returns dicts in every
branch). -/
inductive UpdateReturn where
  | fetchError (msg : String)
  | authError (msg : String)
  | patched (body : UpdatedData)
deriving DecidableEq

/-- `update_agent` (source lines 197-289): first `get_agent` (line 217);
if its result has no `agent_details` key the wrapped error is returned
(line 219) and no PATCH is issued; otherwise the merge runs, credentials
are acquired, and the PATCH is sent with body `updatedData`.  An exception
raised inside the inner `get_agent` propagates. -/
def update_agent (a : UpdateArgs) (getAuth : Except String String)
    (getCurl : GetCurl) (patchAuth : Except String String) : PyResult UpdateReturn :=
  match get_agent a.project_id a.app_id a.agent_id getAuth getCurl with
  | .raised m => .raised m
  | .ret (.agentDetails existing_agent) =>
    let body := updatedData a existing_agent
    match patchAuth with
    | .error e => .ret (.authError ("Authentication failed: " ++ e))
    | .ok _ => .ret (.patched body)
  | .ret r => .ret (.fetchError ("Could not retrieve agent details: " ++ getReturnError r))

/-- The dict returned by `delete_agent` up to the DELETE being issued. -/
inductive DeleteReturn where
  | authError (msg : String)
  | requested
deriving DecidableEq

/-- `delete_agent` (source lines 317-361): required-parameter check first
(line 330, raising on failure), then credentials, then the DELETE. -/
def delete_agent (project_id app_id agent_id : String)
    (auth : Except String String) : PyResult DeleteReturn :=
  if missingParams (getRequired project_id app_id agent_id) ≠ [] then
    .raised (missingParamsMsg (missingParams (getRequired project_id app_id agent_id)))
  else
    match auth with
    | .error e => .ret (.authError ("Authentication failed: " ++ e))
    | .ok _ => .ret (.requested)

/-- A single-quote character, used in the not-found message. -/
def squote : String := String.mk [Char.ofNat 39]

/-- The not-found message of `get_agent_by_display_name` (line 314). -/
def notFoundMessage (display_name : String) : String :=
  "Agent with display name " ++ squote ++ display_name ++ squote ++ " not found."

/-- The dict returned by `get_agent_by_display_name` (lines 291-314):
a match, the structured not-found message, or the list error propagated
verbatim (line 307). -/
inductive FindReturn where
  | found (ag : ExistingAgent)
  | notFound (msg : String)
  | listFailed (e : ListReturn)
deriving DecidableEq

/-- `get_agent_by_display_name` (source lines 291-314): required-parameter
check first (raising on failure); then `list_agents`; a list result with
an error key is returned verbatim; otherwise the first record whose
`displayName` equals the query is returned, else the not-found message. -/
def get_agent_by_display_name (project_id app_id display_name : String)
    (listAuth : Except String String) (listCurl : ListCurl) : PyResult FindReturn :=
  if missingParams (findRequired project_id app_id display_name) ≠ [] then
    .raised (missingParamsMsg (missingParams (findRequired project_id app_id display_name)))
  else
    match list_agents project_id app_id listAuth listCurl with
    | .raised m => .raised m
    | .ret (.agents agents) =>
      match agents.find? (fun ag => ag.displayName == some display_name) with
      | some ag => .ret (.found ag)
      | none => .ret (.notFound (notFoundMessage display_name))
    | .ret r => .ret (.listFailed r)

/-! ### Helper lemmas -/

/-- Length of the composed reasoning-engine path. -/
theorem length_reasoningEngineRef (p d : String) :
    (reasoningEngineRef p d).length = 44 + p.length + d.length := by
  unfold reasoningEngineRef
  rw [String.length_append, String.length_append, String.length_append]
  simp only [show ("projects/" : String).length = 9 from rfl,
    show ("/locations/global/reasoningEngines/" : String).length = 35 from rfl]
  omega

/-- Length of the composed authorization path. -/
theorem length_authorizationRef (p x : String) :
    (authorizationRef p x).length = 42 + p.length + x.length := by
  unfold authorizationRef
  rw [String.length_append, String.length_append, String.length_append]
  simp only [show ("projects/" : String).length = 9 from rfl,
    show ("/locations/global/authorizations/" : String).length = 33 from rfl]
  omega

/-- A list either splits at its first element satisfying `p`, found by
`find?`, or has no such element and `find?` returns `none`. -/
theorem find?_first_split (p : α → Bool) (l : List α) :
    (∃ pre x post, l = pre ++ x :: post ∧ p x = true ∧ (∀ b ∈ pre, p b = false)
      ∧ l.find? p = some x)
  ∨ ((∀ b ∈ l, p b = false) ∧ l.find? p = none) := by
  induction l with
  | nil => exact Or.inr ⟨by simp, rfl⟩
  | cons a t ih =>
    by_cases ha : p a = true
    · exact Or.inl ⟨[], a, t, rfl, ha, by simp, by simp [List.find?, ha]⟩
    · have ha' : p a = false := by
        cases h : p a
        · rfl
        · exact absurd h ha
      rcases ih with ⟨pre, x, post, rfl, hx, hpre, hfind⟩ | ⟨hall, hfind⟩
      · refine Or.inl ⟨a :: pre, x, post, rfl, hx, ?_, ?_⟩
        · intro b hb
          rcases List.mem_cons.mp hb with rfl | hb
          · exact ha'
          · exact hpre b hb
        · simp [List.find?, ha', hfind]
      · refine Or.inr ⟨?_, by simp [List.find?, ha', hfind]⟩
        intro b hb
        rcases List.mem_cons.mp hb with rfl | hb
        · exact ha'
        · exact hall b hb

/-! ### Claim theorems -/

/-- C1: in the merged update payload, each of `displayName`, `description`
and the tool-settings `tool_description` is the caller-supplied value when
that value is non-empty, otherwise the current server-side value for that
field, otherwise the empty string. -/
theorem update_merge_top_fields (a : UpdateArgs) (ex : ExistingAgent) :
    ((updatedData a ex).displayName =
      if a.display_name ≠ "" then a.display_name
      else match ex.displayName with | some v => v | none => "")
  ∧ ((updatedData a ex).description =
      if a.description ≠ "" then a.description
      else match ex.description with | some v => v | none => "")
  ∧ ((updatedData a ex).adk_agent_definition.tool_settings.tool_description =
      if a.tool_description ≠ "" then a.tool_description
      else
        match ex.adkAgentDefinition with
        | none => ""
        | some adk =>
          match adk.toolSettings with
          | none => ""
          | some ts =>
            match ts.toolDescription with
            | some v => v
            | none => "") := by
  obtain ⟨dn, ds, adk, ic⟩ := ex
  refine ⟨?_, ?_, ?_⟩
  · cases dn <;> by_cases h : a.display_name = "" <;> simp [updatedData, strOr, h]
  · cases ds <;> by_cases h : a.description = "" <;> simp [updatedData, strOr, h]
  · rcases adk with _ | ⟨ts, pre, au⟩
    · by_cases h : a.tool_description = "" <;> simp [updatedData, strOr, h]
    · rcases ts with _ | ⟨td⟩
      · by_cases h : a.tool_description = "" <;> simp [updatedData, strOr, h]
      · obtain ⟨tdo⟩ := td
        cases tdo <;> by_cases h : a.tool_description = "" <;> simp [updatedData, strOr, h]

/-- C3: in the merged update payload, a non-empty `auth_id` replaces the
authorizations sequence with the singleton `[auth_id]` regardless of the
prior contents, and an absent `auth_id` keeps the existing record's
sequence verbatim (an absent group or key reading as the empty list). -/
theorem update_authorizations_replace_or_keep (a : UpdateArgs) (ex : ExistingAgent) :
    (updatedData a ex).adk_agent_definition.authorizations =
      if a.auth_id ≠ "" then [a.auth_id]
      else
        match ex.adkAgentDefinition with
        | none => []
        | some adk =>
          match adk.authorizations with
          | some l => l
          | none => [] := by
  obtain ⟨dn, ds, adk, ic⟩ := ex
  rcases adk with _ | ⟨ts, pre, au⟩
  · by_cases h : a.auth_id = "" <;> simp [updatedData, h]
  · cases au <;> by_cases h : a.auth_id = "" <;> simp [updatedData, h]

/-- C4: in the merged update payload, a non-empty `icon_uri` replaces the
icon group with `⟨icon_uri⟩`; an absent `icon_uri` carries over the
existing record's icon group unchanged, including its absence (the field
is omitted when the record has none). -/
theorem update_icon_replace_or_keep (a : UpdateArgs) (ex : ExistingAgent) :
    (updatedData a ex).icon =
      if a.icon_uri ≠ "" then some ⟨a.icon_uri⟩ else ex.icon := by
  obtain ⟨dn, ds, adk, ic⟩ := ex
  by_cases h : a.icon_uri = "" <;> simp [updatedData, h]

/-- Membership in the missing-parameter list: a name is listed exactly
when it is a required parameter whose value is empty. -/
theorem mem_missingParams (params : List (String × String)) (n : String) :
    n ∈ missingParams params ↔ (n, "") ∈ params := by
  unfold missingParams
  simp only [List.mem_map, List.mem_filter]
  constructor
  · rintro ⟨⟨n', v⟩, ⟨hmem, hv⟩, rfl⟩
    have hv' : v = "" := by simpa using hv
    simpa [hv'] using hmem
  · intro hmem
    exact ⟨(n, ""), ⟨hmem, by simp⟩, rfl⟩

/-- C2: when the initial `get` of the current record fails, `update`
returns the wrapped error `Could not retrieve agent details: <inner>` and
issues no PATCH request. -/
theorem update_get_failure_wrapped_no_patch (a : UpdateArgs)
    (gAuth : Except String String) (gCurl : GetCurl) (pAuth : Except String String)
    (r : GetReturn)
    (hr : get_agent a.project_id a.app_id a.agent_id gAuth gCurl = .ret r)
    (hnot : ∀ x, r ≠ GetReturn.agentDetails x) :
    update_agent a gAuth gCurl pAuth =
      .ret (.fetchError ("Could not retrieve agent details: " ++ getReturnError r))
  ∧ ∀ b, update_agent a gAuth gCurl pAuth ≠ .ret (.patched b) := by
  have h1 : update_agent a gAuth gCurl pAuth =
      .ret (.fetchError ("Could not retrieve agent details: " ++ getReturnError r)) := by
    unfold update_agent
    rw [hr]
    cases r with
    | agentDetails x => exact absurd rfl (hnot x)
    | authError m => rfl
    | decodeError s => rfl
    | getError c s => rfl
  exact ⟨h1, by simp [h1]⟩

/-- Witness for C2 at a concrete failing get (credential failure). -/
theorem update_get_failure_wrapped_no_patch_witness :
    update_agent (UpdateArgs.mk "p" "a" "g" "" "" "" "" "" "")
        (Except.error "boom") (GetCurl.parsed (ExistingAgent.mk none none none none))
        (Except.ok "tok") =
      .ret (.fetchError ("Could not retrieve agent details: "
        ++ getReturnError (.authError "Authentication failed: boom"))) :=
  (update_get_failure_wrapped_no_patch (UpdateArgs.mk "p" "a" "g" "" "" "" "" "" "")
    (Except.error "boom") (GetCurl.parsed (ExistingAgent.mk none none none none))
    (Except.ok "tok") (.authError "Authentication failed: boom")
    (by decide) (by intro x; simp)).1

/-- C5: in the merged update payload, a non-empty `adk_deployment_id` is
stored as the reasoning-engine reference verbatim — in particular it is
never the canonical composed path `create` produces — and an absent one
keeps the stored reference, defaulting to the empty string. -/
theorem update_reasoning_engine_verbatim (a : UpdateArgs) (ex : ExistingAgent) :
    ((updatedData a ex).adk_agent_definition.provisionedReasoningEngine.reasoning_engine =
      if a.adk_deployment_id ≠ "" then a.adk_deployment_id
      else
        match ex.adkAgentDefinition with
        | none => ""
        | some adk =>
          match adk.provisionedReasoningEngine with
          | none => ""
          | some pe =>
            match pe.reasoningEngine with
            | some v => v
            | none => "")
  ∧ (a.adk_deployment_id ≠ "" →
      (updatedData a ex).adk_agent_definition.provisionedReasoningEngine.reasoning_engine ≠
        reasoningEngineRef a.project_id a.adk_deployment_id) := by
  constructor
  · obtain ⟨dn, ds, adk, ic⟩ := ex
    rcases adk with _ | ⟨ts, pe, au⟩
    · by_cases h : a.adk_deployment_id = "" <;> simp [updatedData, strOr, h]
    · rcases pe with _ | ⟨pe⟩
      · by_cases h : a.adk_deployment_id = "" <;> simp [updatedData, strOr, h]
      · obtain ⟨reo⟩ := pe
        cases reo <;> by_cases h : a.adk_deployment_id = "" <;> simp [updatedData, strOr, h]
  · intro h heq
    have hm : (updatedData a ex).adk_agent_definition.provisionedReasoningEngine.reasoning_engine
        = a.adk_deployment_id := by
      simp [updatedData, strOr, h]
    rw [hm] at heq
    have hl := congrArg String.length heq
    rw [length_reasoningEngineRef] at hl
    omega

/-- Witness for C5 at a concrete non-empty deployment id. -/
theorem update_reasoning_engine_verbatim_witness :
    (updatedData (UpdateArgs.mk "p1" "a1" "g1" "" "" "" "dep1" "" "")
        (ExistingAgent.mk none none none none)
      ).adk_agent_definition.provisionedReasoningEngine.reasoning_engine ≠
      reasoningEngineRef (UpdateArgs.mk "p1" "a1" "g1" "" "" "" "dep1" "" "").project_id
        (UpdateArgs.mk "p1" "a1" "g1" "" "" "" "dep1" "" "").adk_deployment_id :=
  (update_reasoning_engine_verbatim (UpdateArgs.mk "p1" "a1" "g1" "" "" "" "dep1" "" "")
    (ExistingAgent.mk none none none none)).2 (by decide)

/-- C6: create, for valid required fields, issues a POST whose body holds
the reasoning-engine reference composed verbatim from the project id, the
fixed location `global`, and the deployment id. -/
theorem create_composes_reasoning_engine_ref (a : CreateArgs) (tok : String)
    (h : missingParams (createRequired a) = []) :
    create_agent a (.ok tok) = .ret (.posted (createData a))
  ∧ (createData a).adk_agent_definition.provisioned_reasoning_engine.reasoning_engine =
      "projects/" ++ a.project_id ++ "/locations/global/reasoningEngines/"
        ++ a.adk_deployment_id := by
  refine ⟨?_, rfl⟩
  unfold create_agent
  rw [h]
  simp

/-- Witness for C6 at concrete valid arguments. -/
theorem create_composes_reasoning_engine_ref_witness :
    create_agent (CreateArgs.mk "p1" "a1" "Bot" "d" "t" "dep1" "" "") (.ok "tok") =
      .ret (.posted (createData (CreateArgs.mk "p1" "a1" "Bot" "d" "t" "dep1" "" "")))
  ∧ (createData (CreateArgs.mk "p1" "a1" "Bot" "d" "t" "dep1" "" "")
      ).adk_agent_definition.provisioned_reasoning_engine.reasoning_engine =
      "projects/" ++ (CreateArgs.mk "p1" "a1" "Bot" "d" "t" "dep1" "" "").project_id
        ++ "/locations/global/reasoningEngines/"
        ++ (CreateArgs.mk "p1" "a1" "Bot" "d" "t" "dep1" "" "").adk_deployment_id :=
  create_composes_reasoning_engine_ref (CreateArgs.mk "p1" "a1" "Bot" "d" "t" "dep1" "" "")
    "tok" (by decide)

/-- C7: create with any required field empty fails with the
missing-parameter message listing exactly the names of all missing
required fields, and issues no POST. -/
theorem create_missing_params_listed (a : CreateArgs) (auth : Except String String)
    (h : missingParams (createRequired a) ≠ []) :
    create_agent a auth = .raised (missingParamsMsg (missingParams (createRequired a)))
  ∧ (∀ n, n ∈ missingParams (createRequired a) ↔ (n, "") ∈ createRequired a)
  ∧ (∀ b, create_agent a auth ≠ .ret (.posted b)) := by
  have h1 : create_agent a auth
      = .raised (missingParamsMsg (missingParams (createRequired a))) := by
    unfold create_agent
    simp [h]
  exact ⟨h1, fun n => mem_missingParams (createRequired a) n, by simp [h1]⟩

/-- Witness for C7 with two required fields missing: both are listed. -/
theorem create_missing_params_listed_witness :
    missingParams (createRequired (CreateArgs.mk "p1" "a1" "" "" "t" "dep1" "" ""))
      = ["display_name", "description"]
  ∧ create_agent (CreateArgs.mk "p1" "a1" "" "" "t" "dep1" "" "") (.ok "tok") =
      .raised (missingParamsMsg
        (missingParams (createRequired (CreateArgs.mk "p1" "a1" "" "" "t" "dep1" "" "")))) :=
  ⟨by decide,
   (create_missing_params_listed (CreateArgs.mk "p1" "a1" "" "" "t" "dep1" "" "")
     (.ok "tok") (by decide)).1⟩

/-- The missing-parameter list is empty exactly when every required value
is non-empty. -/
theorem missingParams_nil_iff (params : List (String × String)) :
    missingParams params = [] ↔ ∀ q ∈ params, q.snd ≠ "" := by
  unfold missingParams
  rw [List.map_eq_nil_iff, List.filter_eq_nil_iff]
  simp

/-- C8: when the underlying list succeeds, lookup by display name returns
the first record in list order with an exact, case-sensitive
`displayName` match, and on no match a structured not-found value that is
not an error shape. -/
theorem find_by_display_name_first_match (p ap n : String)
    (lAuth : Except String String) (lCurl : ListCurl) (agents : List ExistingAgent)
    (hp : p ≠ "") (hap : ap ≠ "") (hn : n ≠ "")
    (hl : list_agents p ap lAuth lCurl = .ret (.agents agents)) :
    (∃ pre ag post, agents = pre ++ ag :: post ∧ ag.displayName = some n
       ∧ (∀ b ∈ pre, b.displayName ≠ some n)
       ∧ get_agent_by_display_name p ap n lAuth lCurl = .ret (.found ag))
  ∨ ((∀ b ∈ agents, b.displayName ≠ some n)
       ∧ get_agent_by_display_name p ap n lAuth lCurl
           = .ret (.notFound (notFoundMessage n))
       ∧ (∀ e, FindReturn.notFound (notFoundMessage n) ≠ FindReturn.listFailed e)) := by
  have hmp : missingParams (findRequired p ap n) = [] := by
    rw [missingParams_nil_iff]
    intro q hq
    simp only [findRequired, List.mem_cons, List.not_mem_nil, or_false] at hq
    rcases hq with rfl | rfl | rfl
    · exact hp
    · exact hap
    · exact hn
  have hfind : get_agent_by_display_name p ap n lAuth lCurl =
      (match agents.find? (fun ag => ag.displayName == some n) with
       | some ag => .ret (.found ag)
       | none => .ret (.notFound (notFoundMessage n))) := by
    unfold get_agent_by_display_name
    rw [hmp, hl]
    simp
  rcases find?_first_split (fun ag => ag.displayName == some n) agents with
    ⟨pre, x, post, heq, hx, hpre, hfound⟩ | ⟨hall, hnone⟩
  · left
    refine ⟨pre, x, post, heq, eq_of_beq hx, ?_, ?_⟩
    · intro b hb hcon
      have hb' := hpre b hb
      rw [hcon] at hb'
      simp at hb'
    · rw [hfind, hfound]
  · right
    refine ⟨?_, ?_, ?_⟩
    · intro b hb hcon
      have hb' := hall b hb
      rw [hcon] at hb'
      simp at hb'
    · rw [hfind, hnone]
    · intro e hcon
      exact FindReturn.noConfusion hcon

/-- Witness for C8 at a concrete list with a unique match. -/
theorem find_by_display_name_first_match_witness :
    (∃ pre ag post,
        [ExistingAgent.mk (some "Alpha") none none none,
         ExistingAgent.mk (some "Beta") none none none] = pre ++ ag :: post
       ∧ ag.displayName = some "Beta"
       ∧ (∀ b ∈ pre, b.displayName ≠ some "Beta")
       ∧ get_agent_by_display_name "p" "a" "Beta" (.ok "tok")
           (.withAgents [ExistingAgent.mk (some "Alpha") none none none,
                         ExistingAgent.mk (some "Beta") none none none])
           = .ret (.found ag))
  ∨ ((∀ b ∈ [ExistingAgent.mk (some "Alpha") none none none,
             ExistingAgent.mk (some "Beta") none none none], b.displayName ≠ some "Beta")
       ∧ get_agent_by_display_name "p" "a" "Beta" (.ok "tok")
           (.withAgents [ExistingAgent.mk (some "Alpha") none none none,
                         ExistingAgent.mk (some "Beta") none none none])
           = .ret (.notFound (notFoundMessage "Beta"))
       ∧ (∀ e, FindReturn.notFound (notFoundMessage "Beta") ≠ FindReturn.listFailed e)) :=
  find_by_display_name_first_match "p" "a" "Beta" (.ok "tok")
    (.withAgents [ExistingAgent.mk (some "Alpha") none none none,
                  ExistingAgent.mk (some "Beta") none none none])
    [ExistingAgent.mk (some "Alpha") none none none,
     ExistingAgent.mk (some "Beta") none none none]
    (by decide) (by decide) (by decide) (by decide)

/-- C9 counterexample: `create_agent` called with an empty `display_name`
lets the `ValueError` raised by `_check_required_params` propagate to the
caller instead of returning a structured error value. -/
theorem create_agent_raises_counterexample :
    create_agent (CreateArgs.mk "p1" "a1" "" "d" "t" "dep1" "" "") (.ok "tok")
      = .raised "Missing required parameters: display_name" := by decide

/-- C9 amended: each operation raises an uncaught `ValueError` exactly
when its required-parameter check fails (create, delete and
find-by-display-name check before any remote call; list and get check
after the curl round-trip, and only reach the check when credential
acquisition succeeded; update inherits the raise of its inner get); in
every other case a structured value is returned. -/
theorem operations_raise_only_on_missing_params
    (ca : CreateArgs) (ua : UpdateArgs) (p ap g n : String)
    (auth auth2 : Except String String) (lc : ListCurl) (gc : GetCurl) :
    ((create_agent ca auth).isRaised ↔ missingParams (createRequired ca) ≠ [])
  ∧ ((list_agents p ap auth lc).isRaised ↔
      (exceptIsOk auth = true ∧ missingParams (listRequired p ap) ≠ []))
  ∧ ((get_agent p ap g auth gc).isRaised ↔
      (exceptIsOk auth = true ∧ missingParams (getRequired p ap g) ≠ []))
  ∧ ((update_agent ua auth gc auth2).isRaised ↔
      (exceptIsOk auth = true ∧
        missingParams (getRequired ua.project_id ua.app_id ua.agent_id) ≠ []))
  ∧ ((delete_agent p ap g auth).isRaised ↔ missingParams (getRequired p ap g) ≠ [])
  ∧ ((get_agent_by_display_name p ap n auth lc).isRaised ↔
      missingParams (findRequired p ap n) ≠ []) := by
  refine ⟨?_, ?_, ?_, ?_, ?_, ?_⟩
  · by_cases hm : missingParams (createRequired ca) = []
    · cases auth <;> simp [create_agent, hm, PyResult.isRaised]
    · simp [create_agent, hm, PyResult.isRaised]
  · cases auth with
    | error e => simp [list_agents, PyResult.isRaised, exceptIsOk]
    | ok t =>
      by_cases hm : missingParams (listRequired p ap) = []
      · cases lc <;> simp [list_agents, hm, PyResult.isRaised, exceptIsOk]
      · simp [list_agents, hm, PyResult.isRaised, exceptIsOk]
  · cases auth with
    | error e => simp [get_agent, PyResult.isRaised, exceptIsOk]
    | ok t =>
      by_cases hm : missingParams (getRequired p ap g) = []
      · cases gc <;> simp [get_agent, hm, PyResult.isRaised, exceptIsOk]
      · simp [get_agent, hm, PyResult.isRaised, exceptIsOk]
  · cases auth with
    | error e => simp [update_agent, get_agent, PyResult.isRaised, exceptIsOk]
    | ok t =>
      by_cases hm : missingParams (getRequired ua.project_id ua.app_id ua.agent_id) = []
      · cases gc <;> cases auth2 <;>
          simp [update_agent, get_agent, hm, PyResult.isRaised, exceptIsOk]
      · simp [update_agent, get_agent, hm, PyResult.isRaised, exceptIsOk]
  · by_cases hm : missingParams (getRequired p ap g) = []
    · cases auth <;> simp [delete_agent, hm, PyResult.isRaised]
    · simp [delete_agent, hm, PyResult.isRaised]
  · by_cases hf : missingParams (findRequired p ap n) = []
    · have hl2 : missingParams (listRequired p ap) = [] := by
        rw [missingParams_nil_iff] at hf ⊢
        intro q hq
        apply hf
        simp only [listRequired, List.mem_cons, List.not_mem_nil, or_false] at hq
        rcases hq with rfl | rfl <;> simp [findRequired]
      cases auth with
      | error e => simp [get_agent_by_display_name, list_agents, hf, PyResult.isRaised]
      | ok t =>
        cases lc with
        | withAgents l =>
          cases hfd : l.find? (fun ag => ag.displayName == some n) <;>
            simp [get_agent_by_display_name, list_agents, hf, hl2, hfd, PyResult.isRaised]
        | withoutAgents =>
          simp [get_agent_by_display_name, list_agents, hf, hl2, PyResult.isRaised]
        | badJson s =>
          simp [get_agent_by_display_name, list_agents, hf, hl2, PyResult.isRaised]
        | failed s =>
          simp [get_agent_by_display_name, list_agents, hf, hl2, PyResult.isRaised]
    · simp [get_agent_by_display_name, hf, PyResult.isRaised]

/-- C10: with a non-empty `auth_id`, create sends the fully composed
authorization path while update sends the bare singleton, so the two
operations write different authorization shapes for the same inputs. -/
theorem authorization_shape_asymmetry (ca : CreateArgs) (ua : UpdateArgs)
    (ex : ExistingAgent) (h : ca.auth_id ≠ "") (h2 : ua.auth_id = ca.auth_id) :
    (createData ca).adk_agent_definition.authorizations
      = [authorizationRef ca.project_id ca.auth_id]
  ∧ (updatedData ua ex).adk_agent_definition.authorizations = [ca.auth_id]
  ∧ (createData ca).adk_agent_definition.authorizations
      ≠ (updatedData ua ex).adk_agent_definition.authorizations := by
  have hc : (createData ca).adk_agent_definition.authorizations
      = [authorizationRef ca.project_id ca.auth_id] := by
    simp [createData, h]
  have hu : (updatedData ua ex).adk_agent_definition.authorizations = [ca.auth_id] := by
    simp [updatedData, h2, h]
  refine ⟨hc, hu, ?_⟩
  rw [hc, hu]
  intro hcon
  have hx : authorizationRef ca.project_id ca.auth_id = ca.auth_id := by
    simpa using hcon
  have hl := congrArg String.length hx
  rw [length_authorizationRef] at hl
  omega

/-- Witness for C10 at a concrete shared authorization id. -/
theorem authorization_shape_asymmetry_witness :
    (createData (CreateArgs.mk "p1" "a1" "Bot" "d" "t" "dep1" "authX" "")
      ).adk_agent_definition.authorizations
      = [authorizationRef (CreateArgs.mk "p1" "a1" "Bot" "d" "t" "dep1" "authX" "").project_id
          (CreateArgs.mk "p1" "a1" "Bot" "d" "t" "dep1" "authX" "").auth_id]
  ∧ (updatedData (UpdateArgs.mk "p1" "a1" "g1" "" "" "" "" "authX" "")
      (ExistingAgent.mk none none none none)).adk_agent_definition.authorizations
      = [(CreateArgs.mk "p1" "a1" "Bot" "d" "t" "dep1" "authX" "").auth_id]
  ∧ (createData (CreateArgs.mk "p1" "a1" "Bot" "d" "t" "dep1" "authX" "")
      ).adk_agent_definition.authorizations
      ≠ (updatedData (UpdateArgs.mk "p1" "a1" "g1" "" "" "" "" "authX" "")
          (ExistingAgent.mk none none none none)).adk_agent_definition.authorizations :=
  authorization_shape_asymmetry (CreateArgs.mk "p1" "a1" "Bot" "d" "t" "dep1" "authX" "")
    (UpdateArgs.mk "p1" "a1" "g1" "" "" "" "" "authX" "")
    (ExistingAgent.mk none none none none) (by decide) (by decide)
